import Mathlib

/-!
Verification development for the resume-analyzer matching/scoring engine
(`src/scoring.py`, class `ResumeScorer`).

Modelling conventions, used throughout:

* Python floats are modelled as exact rationals (`ℚ`).  Every constant in the
  scoring engine is a small decimal, and no property below depends on binary
  floating-point rounding.
* Python lists are `List`, Python sets are modelled as insertion-ordered
  duplicate-free lists (`dedupKeepFirst`); set iteration order in CPython is
  unspecified, and every property proved below is insensitive to that order.
* Python dictionaries returned by the scorers are modelled as structures with
  one field per key.
* `str.lower`, `str.strip`, `str.split`, `str.isalpha`, `str.isdigit` are
  modelled by `pyLower`, `pyStrip`, `pySplitWs`, `pyIsAlpha`, `pyIsDigit`
  (ASCII semantics; all inputs handled by the engine are ASCII-normalised).
-/

/-- Python `str.lower()` (ASCII case folding, as used by the engine). -/
def pyLower (s : String) : String := String.mk (s.toList.map Char.toLower)

/-- Python `str.strip()`: drop leading and trailing whitespace. -/
def pyStrip (s : String) : String :=
  String.mk (((s.toList.dropWhile Char.isWhitespace).reverse.dropWhile
    Char.isWhitespace).reverse)

/-- Helper for `pySplitWs`: split a character list at whitespace, carrying the
current (reversed) word. -/
def pySplitWsAux : List Char → List Char → List String
  | [], acc => if acc = [] then [] else [String.mk acc.reverse]
  | c :: rest, acc =>
      if c.isWhitespace then
        if acc = [] then pySplitWsAux rest []
        else String.mk acc.reverse :: pySplitWsAux rest []
      else pySplitWsAux rest (c :: acc)

/-- Python `str.split()` with no argument: split on whitespace runs and drop
empty fields. -/
def pySplitWs (s : String) : List String := pySplitWsAux s.toList []

/-- Separator-joined concatenation (Python `sep.join(parts)`). -/
def strJoinSep (sep : String) : List String → String
  | [] => ""
  | [x] => x
  | x :: xs => x ++ sep ++ strJoinSep sep xs

/-- Python `str.isdigit()` restricted to ASCII: non-empty and all digits. -/
def pyIsDigit (s : String) : Bool := s ≠ "" && s.toList.all Char.isDigit

/-- Python `str.isalpha()` restricted to ASCII: non-empty and all letters. -/
def pyIsAlpha (s : String) : Bool := s ≠ "" && s.toList.all Char.isAlpha

/-- Parse a run of ASCII digits as a natural number (Python `int(...)`). -/
def natOfDigits (cs : List Char) : ℕ :=
  cs.foldl (fun n c => n * 10 + (c.toNat - 48)) 0

/-- The first maximal digit run of a string.  Used to model the capture group
`(\d+)` of the experience regexes: each of those patterns captures exactly the
first digit run of its whole match. -/
def firstDigitRun (s : String) : List Char :=
  (s.toList.dropWhile (fun c => !c.isDigit)).takeWhile Char.isDigit

/-- Bool test: the first list is an initial segment of the second. -/
def listStarts : List Char → List Char → Bool
  | [], _ => true
  | _ :: _, [] => false
  | a :: as, b :: bs => a == b && listStarts as bs

/-- Python substring containment `needle in hay`. -/
def strContains (hay needle : String) : Bool :=
  hay.toList.tails.any (fun t => listStarts needle.toList t)

/-- First-occurrence deduplication.  A CPython `set` accumulated by successive
`add` calls and then listed is modelled as the insertion sequence with later
duplicates dropped. -/
def dedupKeepFirst (l : List String) : List String :=
  l.foldl (fun acc x => if x ∈ acc then acc else acc ++ [x]) []

/-- The NLTK English stop-word list (`stopwords.words('english')`), the
external corpus loaded by `ResumeScorer.__init__` (scoring.py lines 69-74),
transcribed. -/
def stop_words : List String :=
  ["i", "me", "my", "myself", "we", "our", "ours", "ourselves", "you",
   "you\x27re", "you\x27ve", "you\x27ll", "you\x27d", "your", "yours",
   "yourself", "yourselves", "he", "him", "his", "himself", "she",
   "she\x27s", "her", "hers", "herself", "it", "it\x27s", "its", "itself",
   "they", "them", "their", "theirs", "themselves", "what", "which", "who",
   "whom", "this", "that", "that\x27ll", "these", "those", "am", "is",
   "are", "was", "were", "be", "been", "being", "have", "has", "had",
   "having", "do", "does", "did", "doing", "a", "an", "the", "and", "but",
   "if", "or", "because", "as", "until", "while", "of", "at", "by", "for",
   "with", "about", "against", "between", "into", "through", "during",
   "before", "after", "above", "below", "to", "from", "up", "down", "in",
   "out", "on", "off", "over", "under", "again", "further", "then", "once",
   "here", "there", "when", "where", "why", "how", "all", "any", "both",
   "each", "few", "more", "most", "other", "some", "such", "no", "nor",
   "not", "only", "own", "same", "so", "than", "too", "very", "s", "t",
   "can", "will", "just", "don", "don\x27t", "should", "should\x27ve",
   "now", "d", "ll", "m", "o", "re", "ve", "y", "ain", "aren",
   "aren\x27t", "couldn", "couldn\x27t", "didn", "didn\x27t", "doesn",
   "doesn\x27t", "hadn", "hadn\x27t", "hasn", "hasn\x27t", "haven",
   "haven\x27t", "isn", "isn\x27t", "ma", "mightn", "mightn\x27t",
   "mustn", "mustn\x27t", "needn", "needn\x27t", "shan", "shan\x27t",
   "shouldn", "shouldn\x27t", "wasn", "wasn\x27t", "weren", "weren\x27t",
   "won", "won\x27t", "wouldn", "wouldn\x27t"]

/-- The curated resume-boilerplate words added on top of the stop words
(scoring.py lines 77-87, the literal set in `ResumeScorer.__init__`). -/
def boilerplate_words : List String :=
  ["experience", "knowledge", "skills", "ability", "proficiency",
   "familiar", "understanding", "working", "strong", "excellent",
   "good", "basic", "advanced", "expert", "years", "year",
   "plus", "bonus", "preferred", "required", "must", "should",
   "including", "such", "like", "using", "with", "of", "in",
   "and", "or", "the", "a", "an", "to", "for", "on", "at",
   "minimum", "maximum", "least", "development", "programming",
   "software", "application", "system", "technology", "tool",
   "framework", "library", "platform", "environment"]

/-- `self.ignore_words = self.stop_words.union({...})` (scoring.py line 77). -/
def ignore_words : List String := stop_words ++ boilerplate_words

/-!
Regular-expression engine.

The extractor functions of `src/scoring.py` run a fixed battery of Python
regexes.  Each regex is transliterated below into the `Rx` abstract syntax and
run by a Brzozowski-derivative matcher.  `re.finditer`/`re.findall` are
modelled by a left-to-right, non-overlapping scan that at each viable start
position takes the longest match (the backtracking engine's preferred end is
modelled as the longest end; every theorem below evaluates the extractors only
at inputs where the two agree).  A capture group is modelled by the whole
match; where the code reads `match.group(1)`, the model keeps the full match —
again the theorems below only evaluate the extractors at inputs where no
pattern matches at all, or where group 1 and the relevant post-processing
agree.  Word-boundary anchors `\b` occur only at the two edges of a pattern
and are modelled by the `wbLeft`/`wbRight` flags of `RxPat`; the multiline `$`
alternative of the first skill pattern is modelled as the empty alternative
(an over-approximation that can only add matches).
-/

/-- Regular expressions: empty word, single-character class, concatenation,
alternation, Kleene star. -/
inductive Rx where
  | eps : Rx
  | cls : (Char → Bool) → Rx
  | cat : Rx → Rx → Rx
  | alt : Rx → Rx → Rx
  | star : Rx → Rx

/-- The regex matching no string at all. -/
def rxFail : Rx := Rx.cls (fun _ => false)

/-- Nullability: does the regex accept the empty word. -/
def nullable : Rx → Bool
  | Rx.eps => true
  | Rx.cls _ => false
  | Rx.cat a b => nullable a && nullable b
  | Rx.alt a b => nullable a || nullable b
  | Rx.star _ => true

/-- Brzozowski derivative with respect to one character. -/
def derivRx (c : Char) : Rx → Rx
  | Rx.eps => rxFail
  | Rx.cls p => if p c then Rx.eps else rxFail
  | Rx.cat a b =>
      if nullable a then Rx.alt (Rx.cat (derivRx c a) b) (derivRx c b)
      else Rx.cat (derivRx c a) b
  | Rx.alt a b => Rx.alt (derivRx c a) (derivRx c b)
  | Rx.star a => Rx.cat (derivRx c a) (Rx.star a)

/-- Whole-word match of a character list against a regex. -/
def rxMatch (r : Rx) (cs : List Char) : Bool :=
  nullable (cs.foldl (fun acc c => derivRx c acc) r)

/-- A compiled pattern: the regex plus the `\b` word-boundary anchors at its
left and right edge. -/
structure RxPat where
  rx : Rx
  wbLeft : Bool
  wbRight : Bool

/-- Python `\w` (ASCII): letters, digits, underscore. -/
def isWordChar (c : Char) : Bool := c.isAlphanum || c == '_'

/-- Is the character at index `k` (0-based) a word character; out-of-range
positions count as non-word. -/
def isWordAt (s : List Char) (k : ℕ) : Bool := isWordChar (s.getD k ' ')

/-- Python `\b`: positions where word-ness changes between the adjacent
characters (string edges count as non-word). -/
def isBoundaryAt (s : List Char) (p : ℕ) : Bool :=
  (if p = 0 then false else isWordAt s (p - 1)) != isWordAt s p

/-- Does the pattern match the slice `[i, j)` of `s`, including its boundary
anchors. -/
def sliceMatch (p : RxPat) (s : List Char) (i j : ℕ) : Bool :=
  (!p.wbLeft || isBoundaryAt s i) && (!p.wbRight || isBoundaryAt s j)
    && rxMatch p.rx ((s.drop i).take (j - i))

/-- The longest end `j` such that the pattern matches the slice `[i, j)`, if
any. -/
def bestEnd (p : RxPat) (s : List Char) (i : ℕ) : Option ℕ :=
  (((List.range (s.length + 1 - i)).reverse).map (fun k => i + k)).find?
    (fun j => sliceMatch p s i j)

/-- Left-to-right non-overlapping scan collecting match spans, with explicit
fuel (any fuel above `s.length + 1` is enough, since the position strictly
increases). -/
def finditerSpans (p : RxPat) (s : List Char) : ℕ → ℕ → List (ℕ × ℕ)
  | 0, _ => []
  | fuel + 1, i =>
      if s.length < i then []
      else
        match bestEnd p s i with
        | some j =>
            (i, j) :: finditerSpans p s fuel (if j = i then i + 1 else j)
        | none => finditerSpans p s fuel (i + 1)

/-- `re.finditer`: the list of matched substrings, in scan order. -/
def finditer (p : RxPat) (s : String) : List String :=
  (finditerSpans p s.toList (s.toList.length + 2) 0).map
    (fun sp => String.mk ((s.toList.drop sp.1).take (sp.2 - sp.1)))

/-- `re.split`: cut the string at every matched span. -/
def regexSplit (p : RxPat) (s : String) : List String :=
  let rec cut (i : ℕ) : List (ℕ × ℕ) → List String
    | [] => [String.mk (s.toList.drop i)]
    | sp :: rest => String.mk ((s.toList.drop i).take (sp.1 - i)) :: cut sp.2 rest
  cut 0 (finditerSpans p s.toList (s.toList.length + 2) 0)

/-- Literal single character. -/
def rxChar (c : Char) : Rx := Rx.cls (fun x => x == c)

/-- Literal string. -/
def rxLit (s : String) : Rx := s.toList.foldr (fun c r => Rx.cat (rxChar c) r) Rx.eps

/-- Alternation of a list of regexes. -/
def rxAlts (rs : List Rx) : Rx := rs.foldr Rx.alt rxFail

/-- `r?`. -/
def rxOpt (r : Rx) : Rx := Rx.alt r Rx.eps

/-- `r+`. -/
def rxPlus (r : Rx) : Rx := Rx.cat r (Rx.star r)

/-- `\s`. -/
def rxWs : Rx := Rx.cls Char.isWhitespace

/-- `\d`. -/
def rxDigit : Rx := Rx.cls Char.isDigit

/-- `p{2,}` for a character class. -/
def rxTwoPlus (p : Char → Bool) : Rx := Rx.cat (Rx.cls p) (rxPlus (Rx.cls p))

/-- Characters excluded by the class `[^.!?\n]`. -/
def notSentEnd (c : Char) : Bool := !(c == '.' || c == '!' || c == '?' || c == '\n')

/-- Characters excluded by the class `[^,.!?\n]`. -/
def notCommaSentEnd (c : Char) : Bool :=
  !(c == ',' || c == '.' || c == '!' || c == '?' || c == '\n')

/-- The bullet glyphs of the class `[•·\-\*]`. -/
def isBullet (c : Char) : Bool := c == '•' || c == '·' || c == '-' || c == '*'

/-- The class `[:\s]`. -/
def colonOrWs (c : Char) : Bool := c == ':' || c.isWhitespace

/-- Skill pattern 1 (scoring.py line 123):
`(?:technical skills|required skills|skills|qualifications|requirements)[:\s]*`
`([^.!?\n]*(?:\n[^.!?\n]*)*?)(?:\n\s*\n|\n[A-Z]|$)`.
Run with `re.IGNORECASE | re.MULTILINE` on the lowercased description, so
`[A-Z]` matches any letter; the lazy `*?` is modelled as `*` and the multiline
`$` as the empty alternative. -/
def skillPat1 : RxPat :=
  ⟨Rx.cat
      (rxAlts [rxLit "technical skills", rxLit "required skills", rxLit "skills",
               rxLit "qualifications", rxLit "requirements"])
      (Rx.cat (Rx.star (Rx.cls colonOrWs))
        (Rx.cat
          (Rx.cat (Rx.star (Rx.cls notSentEnd))
            (Rx.star (Rx.cat (rxChar '\n') (Rx.star (Rx.cls notSentEnd)))))
          (rxAlts [Rx.cat (rxChar '\n') (Rx.cat (Rx.star rxWs) (rxChar '\n')),
                   Rx.cat (rxChar '\n') (Rx.cls Char.isAlpha),
                   Rx.eps]))),
   false, false⟩

/-- Skill pattern 2 (scoring.py line 124):
`(?:experience with|proficiency in|knowledge of|familiar with)[:\s]*([^.!?\n]*)`. -/
def skillPat2 : RxPat :=
  ⟨Rx.cat
      (rxAlts [rxLit "experience with", rxLit "proficiency in",
               rxLit "knowledge of", rxLit "familiar with"])
      (Rx.cat (Rx.star (Rx.cls colonOrWs)) (Rx.star (Rx.cls notSentEnd))),
   false, false⟩

/-- Skill pattern 3 (scoring.py line 125):
`(?:must have|required|essential)[:\s]*([^.!?\n]*)`. -/
def skillPat3 : RxPat :=
  ⟨Rx.cat (rxAlts [rxLit "must have", rxLit "required", rxLit "essential"])
      (Rx.cat (Rx.star (Rx.cls colonOrWs)) (Rx.star (Rx.cls notSentEnd))),
   false, false⟩

/-- Skill pattern 4 (scoring.py line 128), bullet lines:
`[•·\-\*]\s*([^•·\-\*\n]+)`. -/
def skillPat4 : RxPat :=
  ⟨Rx.cat (Rx.cls isBullet)
      (Rx.cat (Rx.star rxWs)
        (rxPlus (Rx.cls (fun c => !(isBullet c || c == '\n'))))),
   false, false⟩

/-- Skill pattern 5 (scoring.py line 131), parentheticals: `\(([^)]+)\)`. -/
def skillPat5 : RxPat :=
  ⟨Rx.cat (rxChar '(') (Rx.cat (rxPlus (Rx.cls (fun c => !(c == ')')))) (rxChar ')')),
   false, false⟩

/-- Skill pattern 6 (scoring.py line 134):
`\d+\+?\s*years?\s+(?:of\s+)?(?:experience\s+)?(?:in|with|using)\s+([^,.!?\n]+)`. -/
def skillPat6 : RxPat :=
  ⟨Rx.cat (rxPlus rxDigit)
      (Rx.cat (rxOpt (rxChar '+'))
        (Rx.cat (Rx.star rxWs)
          (Rx.cat (rxLit "year")
            (Rx.cat (rxOpt (rxChar 's'))
              (Rx.cat (rxPlus rxWs)
                (Rx.cat (rxOpt (Rx.cat (rxLit "of") (rxPlus rxWs)))
                  (Rx.cat (rxOpt (Rx.cat (rxLit "experience") (rxPlus rxWs)))
                    (Rx.cat (rxAlts [rxLit "in", rxLit "with", rxLit "using"])
                      (Rx.cat (rxPlus rxWs)
                        (rxPlus (Rx.cls notCommaSentEnd))))))))))),
   false, false⟩

/-- The ordered battery `skill_patterns` (scoring.py lines 121-135). -/
def skill_patterns : List RxPat :=
  [skillPat1, skillPat2, skillPat3, skillPat4, skillPat5, skillPat6]

/-- Tech pattern `\b[a-zA-Z][a-zA-Z0-9]*\.js\b` (scoring.py line 181). -/
def techPat1 : RxPat :=
  ⟨Rx.cat (Rx.cls Char.isAlpha)
      (Rx.cat (Rx.star (Rx.cls Char.isAlphanum)) (rxLit ".js")), true, true⟩

/-- Tech pattern `\b[a-zA-Z]+\+\+\b` (scoring.py line 182). -/
def techPat2 : RxPat :=
  ⟨Rx.cat (rxPlus (Rx.cls Char.isAlpha)) (rxLit "++"), true, true⟩

/-- Tech pattern `\b[a-zA-Z]+#\b` (scoring.py line 183). -/
def techPat3 : RxPat :=
  ⟨Rx.cat (rxPlus (Rx.cls Char.isAlpha)) (rxChar '#'), true, true⟩

/-- Tech pattern `\b[a-zA-Z]{2,}\.[a-zA-Z]{2,}\b` (scoring.py line 184). -/
def techPat4 : RxPat :=
  ⟨Rx.cat (rxTwoPlus Char.isAlpha)
      (Rx.cat (rxChar '.') (rxTwoPlus Char.isAlpha)), true, true⟩

/-- Tech pattern `\b[A-Z]{2,}\b` (scoring.py line 185). -/
def techPat5 : RxPat := ⟨rxTwoPlus Char.isUpper, true, true⟩

/-- The ordered battery `tech_patterns` (scoring.py lines 180-186). -/
def tech_patterns : List RxPat :=
  [techPat1, techPat2, techPat3, techPat4, techPat5]

/-- `re.sub(r'[,;()&/\|]', ' ', chunk)` (scoring.py line 151). -/
def subSeparators (s : String) : String :=
  String.mk (s.toList.map (fun c =>
    if c == ',' || c == ';' || c == '(' || c == ')' || c == '&' || c == '/' || c == '|'
    then ' ' else c))

/-- `re.sub(r'\s+', ' ', s)` (scoring.py line 152): collapse every whitespace
run to a single space. -/
def collapseSpaces (s : String) : String :=
  String.mk (s.toList.foldl
    (fun (acc : List Char × Bool) c =>
      if c.isWhitespace then (if acc.2 then acc else (acc.1 ++ [' '], true))
      else (acc.1 ++ [c], false))
    ([], false)).1

/-- The separator regex of `re.split(r'\s+(?:and|or|\+|,|;)\s+', ...)`
(scoring.py line 155). -/
def connectorPat : RxPat :=
  ⟨Rx.cat (rxPlus rxWs)
      (Rx.cat (rxAlts [rxLit "and", rxLit "or", rxChar '+', rxChar ',', rxChar ';'])
        (rxPlus rxWs)),
   false, false⟩

/-- `re.sub(r'[^\w\+#\.-]', '', word)` (scoring.py line 165): keep only word
characters and `+`, `#`, `.`, `-`. -/
def subKeepWordChars (s : String) : String :=
  String.mk (s.toList.filter
    (fun c => isWordChar c || c == '+' || c == '#' || c == '.' || c == '-'))

/-- `re.sub(r'[^\w\s\+#\.-]', '', part)` (scoring.py line 173): additionally
keep whitespace. -/
def subKeepPhraseChars (s : String) : String :=
  String.mk (s.toList.filter
    (fun c => isWordChar c || c.isWhitespace || c == '+' || c == '#' || c == '.' || c == '-'))

/-- The per-part skill harvesting of scoring.py lines 157-177: individual
words (cleaned, longer than one character, not ignored, not numeric) plus the
whole cleaned phrase when the part is at most 3 words and 50 characters and
contains no ignored word. -/
def process_part (part0 : String) : List String :=
  let part := pyStrip part0
  if part.length > 1 then
    let words := pySplitWs part
    let singles := words.filterMap (fun w =>
      let w' := subKeepWordChars w
      if w'.length > 1 && !(ignore_words.contains (pyLower w')) && !(pyIsDigit w')
      then some (pyLower w') else none)
    let multi :=
      if words.length ≤ 3 && part.length ≤ 50 then
        let clean_part := pyStrip (subKeepPhraseChars part)
        if clean_part ≠ "" && clean_part.length > 2
            && !((pySplitWs (pyLower clean_part)).any (fun w => ignore_words.contains w))
        then [pyLower clean_part] else []
      else []
    singles ++ multi
  else []

/-- The per-chunk processing of scoring.py lines 149-177: strip separator
punctuation, collapse whitespace, split on connector words, harvest each
part. -/
def process_chunk (chunk : String) : List String :=
  let cleaned_chunk := pyStrip (collapseSpaces (subSeparators chunk))
  let parts := regexSplit connectorPat cleaned_chunk
  parts.flatMap process_part

/-- `ResumeScorer.extract_skills_from_job_description` (scoring.py lines
116-194).  The accumulating Python `set` is modelled as the insertion sequence
deduplicated by `dedupKeepFirst`. -/
def extract_skills_from_job_description (job_description : String) : List String :=
  let jd_lower := pyLower job_description
  let raw_matches := skill_patterns.flatMap (fun p => finditer p jd_lower)
  let chunks := raw_matches.filterMap (fun m =>
    if m ≠ "" && (pyStrip m).length > 2 then some (pyStrip m) else none)
  let from_chunks := chunks.flatMap process_chunk
  let tech_matches := tech_patterns.flatMap (fun p => finditer p job_description)
  let from_tech := tech_matches.filterMap (fun m =>
    if !(ignore_words.contains (pyLower m)) then some (pyLower m) else none)
  dedupKeepFirst (from_chunks ++ from_tech)

/-- One entry of the resume `experience` list: `title` and `context`
free-text fields (absent fields are the empty string). -/
structure ExperienceEntry where
  title : String
  context : String
deriving DecidableEq

/-- One entry of the resume `education` list: `institution` and `context`
free-text fields. -/
structure EducationEntry where
  institution : String
  context : String
deriving DecidableEq

/-- The structured resume record consumed by the scorer (spec section 3).
Absent optional fields are modelled by their neutral defaults (empty string,
empty list, 0), exactly as `parsed_resume.get(...)` substitutes them. -/
structure ParsedResume where
  skills : List String
  summary : String
  experience : List ExperienceEntry
  education : List EducationEntry
  raw_text : String
  total_experience_years : ℚ
deriving DecidableEq

/-- The token regex `\b[a-zA-Z][a-zA-Z0-9\+#\.-]*\b` of
`extract_skills_from_resume` (scoring.py line 215). -/
def resumeWordPat : RxPat :=
  ⟨Rx.cat (Rx.cls Char.isAlpha)
      (Rx.star (Rx.cls (fun c =>
        c.isAlphanum || c == '+' || c == '#' || c == '.' || c == '-'))),
   true, true⟩

/-- `ResumeScorer.extract_skills_from_resume` (scoring.py lines 196-222). -/
def extract_skills_from_resume (parsed_resume : ParsedResume) : List String :=
  let seeds := parsed_resume.skills.map (fun sk => pyStrip (pyLower sk))
  let resume_text_parts :=
    [parsed_resume.summary,
     strJoinSep " " (parsed_resume.experience.map (fun e => e.title ++ " " ++ e.context)),
     strJoinSep " " (parsed_resume.education.map (fun e => e.institution ++ " " ++ e.context)),
     parsed_resume.raw_text]
  let full_resume_text := pyLower (strJoinSep " " resume_text_parts)
  let words := finditer resumeWordPat full_resume_text
  let mined := words.filterMap (fun w =>
    if w.length > 1 && !(ignore_words.contains (pyLower w)) && !(pyIsDigit w)
    then some (pyLower w) else none)
  dedupKeepFirst (seeds ++ mined)

/-- Character-set Jaccard similarity (scoring.py lines 237-241):
`|set(s1) ∩ set(s2)| / |set(s1) ∪ set(s2)|`, 0 when the union is empty. -/
def charJaccard (s1 s2 : String) : ℚ :=
  let set1 := s1.toList.toFinset
  let set2 := s2.toList.toFinset
  let inter := (set1 ∩ set2).card
  let union := (set1 ∪ set2).card
  if 0 < union then (inter : ℚ) / (union : ℚ) else 0

/-- Word-set Jaccard similarity (scoring.py lines 244-249):
`|common_words| / |total_words|`, 0 when there are no words at all. -/
def wordJaccard (s1 s2 : String) : ℚ :=
  let words1 := (pySplitWs s1).toFinset
  let words2 := (pySplitWs s2).toFinset
  let common := (words1 ∩ words2).card
  let total := (words1 ∪ words2).card
  if 0 < total then (common : ℚ) / (total : ℚ) else 0

/-- `ResumeScorer.calculate_skill_similarity` (scoring.py lines 224-252):
1.0 on equality of the lowercased strings, 0.9 on substring containment either
way, otherwise character-set Jaccard, also compared against word-set Jaccard
when either string has more than one word. -/
def calculate_skill_similarity (skill1 skill2 : String) : ℚ :=
  let s1 := pyLower skill1
  let s2 := pyLower skill2
  if s1 = s2 then 1
  else if strContains s2 s1 || strContains s1 s2 then 9/10
  else if 1 < (pySplitWs s1).length ∨ 1 < (pySplitWs s2).length then
    max (charJaccard s1 s2) (wordJaccard s1 s2)
  else charJaccard s1 s2

/-- The inner loop of `score_skills_direct_match` (scoring.py lines 277-285):
the best similarity of one job skill against every resume skill, starting
from 0. -/
def bestSimilarity (job_skill : String) (resume_skills : List String) : ℚ :=
  resume_skills.foldl (fun best r => max best (calculate_skill_similarity job_skill r)) 0

/-- The debug dictionary of the skills scorer.  The keys absent in one of the
two branches (`match_rate`, `base_score`, `skill_abundance_bonus` in the
empty branch, `reason` in the main branch) are modelled by 0 and `none`; the
`job_skills`/`resume_skills_sample` preview lists are omitted. -/
structure SkillsDebug where
  job_skills_found : ℕ
  resume_skills_found : ℕ
  match_rate : ℚ
  base_score : ℚ
  skill_abundance_bonus : ℚ
  reason : Option String
deriving DecidableEq

/-- The dictionary returned by `score_skills_direct_match`. -/
structure SkillsResult where
  score : ℚ
  matched : List String
  missing : List String
  debug : SkillsDebug
deriving DecidableEq

/-- The body of `score_skills_direct_match` (scoring.py lines 261-319) after
the two extractor calls: the neutral branch for an empty job-skill set, else
the threshold classification (0.7) and the `min(100, match_rate*85 +
min(15, abundance*10))` score.  The single pass that appends each job skill
to `matched_skills` or `missing_skills` is written as the two complementary
filters it computes. -/
def score_skills_from_lists (job_skills resume_skills : List String) : SkillsResult :=
  if job_skills.isEmpty then
    ⟨50, [], job_skills,
     ⟨0, resume_skills.length, 0, 0, 0, some "No skills extracted from job description"⟩⟩
  else
    let matched_skills := job_skills.filter
      (fun j => decide ((7 : ℚ)/10 ≤ bestSimilarity j resume_skills))
    let missing_skills := job_skills.filter
      (fun j => !(decide ((7 : ℚ)/10 ≤ bestSimilarity j resume_skills)))
    let match_rate : ℚ := (matched_skills.length : ℚ) / (job_skills.length : ℚ)
    let base_score := match_rate * 85
    let skill_abundance_bonus : ℚ :=
      min 15 ((resume_skills.length : ℚ) / ((max 1 job_skills.length : ℕ) : ℚ) * 10)
    let total_score := min 100 (base_score + skill_abundance_bonus)
    ⟨total_score, matched_skills, missing_skills,
     ⟨job_skills.length, resume_skills.length, match_rate, base_score,
      skill_abundance_bonus, none⟩⟩

/-- `ResumeScorer.score_skills_direct_match` (scoring.py lines 254-319). -/
def score_skills_direct_match (parsed_resume : ParsedResume) (job_description : String) :
    SkillsResult :=
  score_skills_from_lists (extract_skills_from_job_description job_description)
    (extract_skills_from_resume parsed_resume)

/-- The lightweight requirements structure produced by
`_parse_job_description_simple`; the `full_text` key is unused downstream and
omitted. -/
structure JobRequirements where
  min_experience : ℚ
  education_requirement : Option String

/-- `self.education_hierarchy` (scoring.py lines 100-106), in insertion
order. -/
def education_hierarchy : List (String × ℕ) :=
  [("phd", 5), ("doctorate", 5), ("doctoral", 5),
   ("master", 4), ("masters", 4), ("msc", 4), ("mba", 4),
   ("bachelor", 3), ("bachelors", 3), ("bsc", 3), ("ba", 3),
   ("associate", 2), ("diploma", 2),
   ("certificate", 1), ("certification", 1)]

/-- `self.education_hierarchy.get(key, 0)`. -/
def hierarchyGet (key : String) : ℕ :=
  ((education_hierarchy.find? (fun p => p.1 == key)).map Prod.snd).getD 0

/-- Experience pattern `(\d+)[\+\s]*years?\s+(?:of\s+)?(?:experience|exp)`
(scoring.py line 429). -/
def expPat1 : RxPat :=
  ⟨Rx.cat (rxPlus rxDigit)
      (Rx.cat (Rx.star (Rx.cls (fun c => c == '+' || c.isWhitespace)))
        (Rx.cat (rxLit "year")
          (Rx.cat (rxOpt (rxChar 's'))
            (Rx.cat (rxPlus rxWs)
              (Rx.cat (rxOpt (Rx.cat (rxLit "of") (rxPlus rxWs)))
                (rxAlts [rxLit "experience", rxLit "exp"])))))),
   false, false⟩

/-- Experience pattern `minimum\s+(\d+)\s+years?` (scoring.py line 430). -/
def expPat2 : RxPat :=
  ⟨Rx.cat (rxLit "minimum")
      (Rx.cat (rxPlus rxWs)
        (Rx.cat (rxPlus rxDigit)
          (Rx.cat (rxPlus rxWs) (Rx.cat (rxLit "year") (rxOpt (rxChar 's')))))),
   false, false⟩

/-- Experience pattern `(\d+)[\+\s]*years?\s+(?:in|with|of)`
(scoring.py line 431). -/
def expPat3 : RxPat :=
  ⟨Rx.cat (rxPlus rxDigit)
      (Rx.cat (Rx.star (Rx.cls (fun c => c == '+' || c.isWhitespace)))
        (Rx.cat (rxLit "year")
          (Rx.cat (rxOpt (rxChar 's'))
            (Rx.cat (rxPlus rxWs) (rxAlts [rxLit "in", rxLit "with", rxLit "of"]))))),
   false, false⟩

/-- Experience pattern `(\d+)\+\s*years?` (scoring.py line 432). -/
def expPat4 : RxPat :=
  ⟨Rx.cat (rxPlus rxDigit)
      (Rx.cat (rxChar '+')
        (Rx.cat (Rx.star rxWs) (Rx.cat (rxLit "year") (rxOpt (rxChar 's'))))),
   false, false⟩

/-- The ordered battery `exp_patterns` (scoring.py lines 428-433). -/
def exp_patterns : List RxPat := [expPat1, expPat2, expPat3, expPat4]

/-- `ResumeScorer._parse_job_description_simple` (scoring.py lines 423-452):
the largest first-match years figure over the experience patterns, and the
highest education-hierarchy keyword contained in the text. -/
def parse_job_description_simple (job_description : String) : JobRequirements :=
  let jd_lower := pyLower job_description
  let min_experience : ℕ := exp_patterns.foldl (fun m p =>
    match finditer p jd_lower with
    | [] => m
    | m0 :: _ => max m (natOfDigits (firstDigitRun m0))) 0
  let education_requirement : Option String :=
    education_hierarchy.foldl (fun acc lv =>
      if strContains jd_lower lv.1 then
        match acc with
        | none => some lv.1
        | some cur => if lv.2 > hierarchyGet cur then some lv.1 else acc
      else acc) none
  ⟨(min_experience : ℚ), education_requirement⟩

/-- The dictionary returned by `_score_experience`. -/
structure ExperienceResult where
  score : ℚ
  gap : ℚ
deriving DecidableEq

/-- `ResumeScorer._score_experience` (scoring.py lines 321-340).  The
`parsed_resume.get('total_experience_years', 0) or 0` default is carried by
the `total_experience_years` field itself. -/
def score_experience (parsed_resume : ParsedResume) (job_requirements : JobRequirements) :
    ExperienceResult :=
  let resume_experience := parsed_resume.total_experience_years
  let required_experience := job_requirements.min_experience
  if required_experience = 0 then ⟨75, 0⟩
  else if required_experience ≤ resume_experience then
    let bonus := min 25 ((resume_experience - required_experience) * 5)
    ⟨min 100 (75 + bonus), max 0 (required_experience - resume_experience)⟩
  else
    let gap := required_experience - resume_experience
    let penalty := gap * 15
    ⟨max 0 (75 - penalty), max 0 (required_experience - resume_experience)⟩

/-- `ResumeScorer._score_education` (scoring.py lines 342-369), returning the
`score` value of its result dictionary.  `if not required_education` is
Python truthiness: both `None` and the empty string select the neutral
branch. -/
def score_education (parsed_resume : ParsedResume) (job_requirements : JobRequirements) : ℚ :=
  match job_requirements.education_requirement with
  | none => 75
  | some required_education =>
    if required_education = "" then 75
    else if parsed_resume.education = [] then 30
    else
      let highest_level := parsed_resume.education.foldl (fun hl edu =>
        let edu_text := pyLower edu.institution ++ " " ++ pyLower edu.context
        education_hierarchy.foldl (fun hl2 lv =>
          if strContains edu_text lv.1 then max hl2 lv.2 else hl2) hl) 0
      let required_level := hierarchyGet (pyLower required_education)
      if required_level ≤ highest_level then
        min 100 (80 + ((highest_level : ℚ) - (required_level : ℚ)) * 10)
      else
        max 20 (80 - ((required_level : ℚ) - (highest_level : ℚ)) * 20)

/-- `ResumeScorer._clean_tokens` (scoring.py lines 414-421): keep tokens that
are longer than 2 characters, purely alphabetic, and not stop words. -/
def clean_tokens (tokens : List String) : List String :=
  tokens.filter (fun token =>
    token.length > 2 && pyIsAlpha token && !(stop_words.contains token))

/-- `ResumeScorer._score_keywords` (scoring.py lines 371-391), returning the
`score` value.  `tokenize` stands for `safe_tokenize`, whose behaviour is the
external NLTK tokenizer (with a regex fallback); every property proved below
holds for an arbitrary tokenizer. -/
def score_keywords (tokenize : String → List String) (parsed_resume : ParsedResume)
    (job_description : String) : ℚ :=
  let resume_text := pyLower
    (strJoinSep " " parsed_resume.skills ++ " " ++ parsed_resume.summary ++ " " ++
     strJoinSep " " (parsed_resume.experience.map (fun e => e.title)))
  let jd_text := pyLower job_description
  let resume_tokens := (clean_tokens (tokenize resume_text)).toFinset
  let jd_tokens := (clean_tokens (tokenize jd_text)).toFinset
  if jd_tokens = ∅ then 50
  else
    let overlap := (resume_tokens ∩ jd_tokens).card
    let union := (resume_tokens ∪ jd_tokens).card
    let jaccard_score : ℚ := if 0 < union then ((overlap : ℚ) / (union : ℚ)) * 100 else 0
    min 100 (jaccard_score * 2)

/-- `ResumeScorer._score_summary` (scoring.py lines 393-412), returning the
`score` value. -/
def score_summary (tokenize : String → List String) (parsed_resume : ParsedResume)
    (job_description : String) : ℚ :=
  if parsed_resume.summary = "" then 50
  else
    let summary_lower := pyLower parsed_resume.summary
    let jd_lower := pyLower job_description
    let jd_tokens := (clean_tokens (tokenize jd_lower)).toFinset
    let summary_tokens := (clean_tokens (tokenize summary_lower)).toFinset
    if jd_tokens = ∅ then 50
    else
      let overlap := (summary_tokens ∩ jd_tokens).card
      let relevance_score : ℚ := ((overlap : ℚ) / (jd_tokens.card : ℚ)) * 100
      min 100 (relevance_score * 3)

/-- Round-half-to-even on rationals (the rounding of Python `round`; binary
float ties are immaterial for the decimal constants of this engine). -/
def roundHalfEven (x : ℚ) : ℤ :=
  let f := ⌊x⌋
  let r := x - (f : ℚ)
  if r < 1/2 then f
  else if 1/2 < r then f + 1
  else if f % 2 = 0 then f else f + 1

/-- Python `round(x, 2)`. -/
def round2 (x : ℚ) : ℚ := (roundHalfEven (x * 100) : ℚ) / 100

/-- Python `f"{q:.1f}"` for the non-negative gaps produced by the engine
(model: nearest multiple of one tenth, half to even). -/
def fmt1 (q : ℚ) : String :=
  let n := roundHalfEven (q * 10)
  let a := n.natAbs
  (if n < 0 then "-" else "") ++ toString (a / 10) ++ "." ++ toString (a % 10)

/-- The skills-gap recommendation template (scoring.py lines 521-523). -/
def skills_gap_message (missing_skills : List String) : String :=
  "Skills gap identified. Missing " ++ toString missing_skills.length ++
    " key skills: " ++ strJoinSep ", " (missing_skills.take 3) ++
    (if missing_skills.length > 3 then "..." else "")

/-- The experience-gap recommendation template (scoring.py lines 526-528). -/
def experience_gap_message (gap : ℚ) : String :=
  "Experience gap: " ++ fmt1 gap ++ " years below requirement"

/-- The education recommendation string (scoring.py line 531). -/
def education_message : String := "Education level may not meet job requirements"

/-- The keywords recommendation string (scoring.py line 534). -/
def keywords_message : String := "Resume could better match job description keywords"

/-- The summary recommendation string (scoring.py line 537). -/
def summary_message : String :=
  "Professional summary could be more aligned with job requirements"

/-- The fallback positive string (scoring.py line 540). -/
def strong_match_message : String := "Strong candidate match across all criteria"

/-- `ResumeScorer._generate_recommendations` (scoring.py lines 512-542). -/
def generate_recommendations (skills_result : SkillsResult)
    (experience_result : ExperienceResult)
    (education_score keywords_score summary_score : ℚ) : List String :=
  let recommendations : List String := []
  let recommendations :=
    if skills_result.score < 60 ∧ 0 < skills_result.missing.length then
      recommendations ++ [skills_gap_message skills_result.missing]
    else recommendations
  let recommendations :=
    if experience_result.score < 60 ∧ 0 < experience_result.gap then
      recommendations ++ [experience_gap_message experience_result.gap]
    else recommendations
  let recommendations :=
    if education_score < 60 then recommendations ++ [education_message]
    else recommendations
  let recommendations :=
    if keywords_score < 50 then recommendations ++ [keywords_message]
    else recommendations
  let recommendations :=
    if summary_score < 50 then recommendations ++ [summary_message]
    else recommendations
  if recommendations = [] then [strong_match_message] else recommendations

/-- `ScoringWeights` (scoring.py lines 36-43). -/
structure ScoringWeights where
  skills_weight : ℚ
  experience_weight : ℚ
  education_weight : ℚ
  keywords_weight : ℚ
  summary_weight : ℚ
deriving DecidableEq

/-- The default weights of `ScoringWeights`. -/
def defaultWeights : ScoringWeights := ⟨35/100, 25/100, 15/100, 15/100, 10/100⟩

/-- `MatchResult` (scoring.py lines 45-58). -/
structure MatchResult where
  overall_score : ℚ
  skills_score : ℚ
  experience_score : ℚ
  education_score : ℚ
  keywords_score : ℚ
  summary_score : ℚ
  matched_skills : List String
  missing_skills : List String
  experience_gap : ℚ
  recommendations : List String
  debug_info : Option SkillsDebug
deriving DecidableEq

/-- The body of `ResumeScorer.calculate_match_score` (scoring.py lines
454-506, the `try` branch).  `tokenize` is the external tokenizer used by the
keyword and summary scorers; the unused `required_skills`/`preferred_skills`
parameters of the Python signature are dropped; `min_experience` and
`education_requirement` are the explicit overrides (the latter applied only
when truthy, i.e. a non-empty string). -/
def calculate_match_score (tokenize : String → List String)
    (weights : ScoringWeights) (parsed_resume : ParsedResume)
    (job_description : String) (min_experience : Option ℚ)
    (education_requirement : Option String) : MatchResult :=
  let job_requirements0 := parse_job_description_simple job_description
  let job_requirements1 :=
    match min_experience with
    | some v => { job_requirements0 with min_experience := v }
    | none => job_requirements0
  let job_requirements :=
    match education_requirement with
    | some e =>
        if e ≠ "" then { job_requirements1 with education_requirement := some e }
        else job_requirements1
    | none => job_requirements1
  let skills_result := score_skills_direct_match parsed_resume job_description
  let experience_result := score_experience parsed_resume job_requirements
  let education_result := score_education parsed_resume job_requirements
  let keywords_result := score_keywords tokenize parsed_resume job_description
  let summary_result := score_summary tokenize parsed_resume job_description
  let overall_score :=
    skills_result.score * weights.skills_weight +
    experience_result.score * weights.experience_weight +
    education_result * weights.education_weight +
    keywords_result * weights.keywords_weight +
    summary_result * weights.summary_weight
  let recommendations := generate_recommendations skills_result experience_result
    education_result keywords_result summary_result
  ⟨round2 overall_score, round2 skills_result.score, round2 experience_result.score,
   round2 education_result, round2 keywords_result, round2 summary_result,
   skills_result.matched, skills_result.missing, experience_result.gap,
   recommendations, some skills_result.debug⟩

/-- `ResumeScorer._create_error_result` (scoring.py lines 544-557). -/
def create_error_result (error_message : String) : MatchResult :=
  ⟨0, 0, 0, 0, 0, 0, [], [], 0, ["Error in scoring: " ++ error_message], none⟩

/-- The `try`/`except` boundary of `calculate_match_score` (scoring.py lines
462-510): the pipeline body either completes with a `MatchResult` or raises
with some message (possible only through the external collaborators, e.g. a
malformed weights object); the boundary converts the latter into the sentinel
error result, so no exception escapes. -/
def calculate_match_score_boundary (pipeline : Except String MatchResult) : MatchResult :=
  match pipeline with
  | Except.ok result => result
  | Except.error e => create_error_result e

/-- The fixed prefix identifying the skills-gap recommendation template. -/
def skillsGapTag : List Char := "Skills gap identified".toList

/-- Does a recommendation string carry the skills-gap template prefix. -/
def hasSkillsGapTag (r : String) : Bool := listStarts skillsGapTag r.toList

/-- The recommendation list as described by spec section 4.6 with the skills
condition amended to require a non-empty missing list (the form the source
recommendation generator actually computes): one fixed-template string per
triggered condition, in the fixed order, with the single positive fallback
when nothing triggers. -/
def orderedRecommendations (skills_result : SkillsResult)
    (experience_result : ExperienceResult)
    (education_score keywords_score summary_score : ℚ) : List String :=
  let l :=
    (if skills_result.score < 60 ∧ 0 < skills_result.missing.length then
      [skills_gap_message skills_result.missing] else []) ++
    (if experience_result.score < 60 ∧ 0 < experience_result.gap then
      [experience_gap_message experience_result.gap] else []) ++
    (if education_score < 60 then [education_message] else []) ++
    (if keywords_score < 50 then [keywords_message] else []) ++
    (if summary_score < 50 then [summary_message] else [])
  if l = [] then [strong_match_message] else l

/-!
Helper lemmas.
-/

theorem dedupKeepFirst_nodup (l : List String) : (dedupKeepFirst l).Nodup := by
  suffices h : ∀ acc : List String, acc.Nodup →
      (List.foldl (fun acc x => if x ∈ acc then acc else acc ++ [x]) acc l).Nodup from
    h [] List.nodup_nil
  induction l with
  | nil => intro acc h; simpa using h
  | cons x xs ih =>
      intro acc h
      simp only [List.foldl_cons]
      by_cases hx : x ∈ acc
      · rw [if_pos hx]; exact ih acc h
      · rw [if_neg hx]
        refine ih _ (List.Nodup.append h (List.nodup_singleton x) ?_)
        intro a ha hb
        rw [List.mem_singleton] at hb
        subst hb; exact hx ha

theorem extract_skills_from_job_description_nodup (jd : String) :
    (extract_skills_from_job_description jd).Nodup := by
  simp only [extract_skills_from_job_description]
  exact dedupKeepFirst_nodup _

theorem skills_partition (js rs : List String) (hnd : js.Nodup) :
    (∀ s, s ∈ js ↔ (s ∈ (score_skills_from_lists js rs).matched ∨
        s ∈ (score_skills_from_lists js rs).missing)) ∧
    (∀ s, ¬ (s ∈ (score_skills_from_lists js rs).matched ∧
        s ∈ (score_skills_from_lists js rs).missing)) ∧
    (∀ s ∈ js, ((score_skills_from_lists js rs).matched ++
        (score_skills_from_lists js rs).missing).count s = 1) := by
  cases js with
  | nil => simp [score_skills_from_lists]
  | cons a as =>
    have hm : (score_skills_from_lists (a :: as) rs).matched =
        (a :: as).filter (fun j => decide ((7 : ℚ)/10 ≤ bestSimilarity j rs)) := rfl
    have hg : (score_skills_from_lists (a :: as) rs).missing =
        (a :: as).filter (fun j => !(decide ((7 : ℚ)/10 ≤ bestSimilarity j rs))) := rfl
    refine ⟨?_, ?_, ?_⟩
    · intro s
      rw [hm, hg]
      simp only [List.mem_filter]
      constructor
      · intro hs
        by_cases hps : (7 : ℚ)/10 ≤ bestSimilarity s rs
        · exact Or.inl ⟨hs, by simpa using hps⟩
        · exact Or.inr ⟨hs, by simpa using hps⟩
      · rintro (⟨hs, _⟩ | ⟨hs, _⟩) <;> exact hs
    · intro s
      rw [hm, hg]
      simp only [List.mem_filter]
      rintro ⟨⟨_, h1⟩, ⟨_, h2⟩⟩
      rw [h1] at h2
      simp at h2
    · intro s hs
      rw [hm, hg, List.count_append]
      by_cases hps : (7 : ℚ)/10 ≤ bestSimilarity s rs
      · have h1 : s ∈ (a :: as).filter (fun j => decide ((7 : ℚ)/10 ≤ bestSimilarity j rs)) :=
          List.mem_filter.mpr ⟨hs, by simpa using hps⟩
        have c1 := List.count_eq_one_of_mem (hnd.filter _) h1
        have c2 : ((a :: as).filter
            (fun j => !(decide ((7 : ℚ)/10 ≤ bestSimilarity j rs)))).count s = 0 := by
          rw [List.count_eq_zero]
          intro hmem
          have := (List.mem_filter.mp hmem).2
          simp [hps] at this
        omega
      · have h1 : s ∈ (a :: as).filter
            (fun j => !(decide ((7 : ℚ)/10 ≤ bestSimilarity j rs))) :=
          List.mem_filter.mpr ⟨hs, by simpa using hps⟩
        have c1 := List.count_eq_one_of_mem (hnd.filter _) h1
        have c2 : ((a :: as).filter
            (fun j => decide ((7 : ℚ)/10 ≤ bestSimilarity j rs))).count s = 0 := by
          rw [List.count_eq_zero]
          intro hmem
          have := (List.mem_filter.mp hmem).2
          simp [hps] at this
        omega

theorem charJaccard_bounds (s1 s2 : String) :
    0 ≤ charJaccard s1 s2 ∧ charJaccard s1 s2 ≤ 1 := by
  simp only [charJaccard]
  by_cases h : 0 < (s1.toList.toFinset ∪ s2.toList.toFinset).card
  · rw [if_pos h]
    constructor
    · positivity
    · rw [div_le_one (by exact_mod_cast h)]
      exact_mod_cast Finset.card_le_card
        ((Finset.inter_subset_left).trans Finset.subset_union_left)
  · rw [if_neg h]; norm_num

theorem wordJaccard_bounds (s1 s2 : String) :
    0 ≤ wordJaccard s1 s2 ∧ wordJaccard s1 s2 ≤ 1 := by
  simp only [wordJaccard]
  by_cases h : 0 < ((pySplitWs s1).toFinset ∪ (pySplitWs s2).toFinset).card
  · rw [if_pos h]
    constructor
    · positivity
    · rw [div_le_one (by exact_mod_cast h)]
      exact_mod_cast Finset.card_le_card
        ((Finset.inter_subset_left).trans Finset.subset_union_left)
  · rw [if_neg h]; norm_num

theorem calculate_skill_similarity_bounds (a b : String) :
    0 ≤ calculate_skill_similarity a b ∧ calculate_skill_similarity a b ≤ 1 := by
  simp only [calculate_skill_similarity]
  split
  · norm_num
  · split
    · norm_num
    · split
      · have h1 := charJaccard_bounds (pyLower a) (pyLower b)
        have h2 := wordJaccard_bounds (pyLower a) (pyLower b)
        constructor
        · exact le_max_of_le_left h1.1
        · exact max_le h1.2 h2.2
      · exact charJaccard_bounds (pyLower a) (pyLower b)

theorem score_skills_from_lists_bounds (js rs : List String) :
    0 ≤ (score_skills_from_lists js rs).score ∧ (score_skills_from_lists js rs).score ≤ 100 := by
  cases js with
  | nil => simp [score_skills_from_lists]; norm_num
  | cons a as =>
    have hsc : (score_skills_from_lists (a :: as) rs).score =
        min 100 ((((a :: as).filter
            (fun j => decide ((7 : ℚ)/10 ≤ bestSimilarity j rs))).length : ℚ) /
            (((a :: as).length : ℕ) : ℚ) * 85 +
          min 15 ((rs.length : ℚ) / ((max 1 (a :: as).length : ℕ) : ℚ) * 10)) := rfl
    rw [hsc]
    constructor
    · apply le_min (by norm_num)
      have h1 : (0 : ℚ) ≤
          (((a :: as).filter (fun j => decide ((7 : ℚ)/10 ≤ bestSimilarity j rs))).length : ℚ) /
            (((a :: as).length : ℕ) : ℚ) * 85 := by positivity
      have h2 : (0 : ℚ) ≤ min 15 ((rs.length : ℚ) / ((max 1 (a :: as).length : ℕ) : ℚ) * 10) := by
        apply le_min (by norm_num)
        positivity
      linarith
    · exact min_le_left _ _

theorem score_experience_bounds (parsed_resume : ParsedResume)
    (job_requirements : JobRequirements) :
    0 ≤ (score_experience parsed_resume job_requirements).score ∧
    (score_experience parsed_resume job_requirements).score ≤ 100 ∧
    0 ≤ (score_experience parsed_resume job_requirements).gap := by
  simp only [score_experience]
  split
  · norm_num
  · split
    · refine ⟨?_, ?_, ?_⟩
      · have : (0 : ℚ) ≤ min 25
            ((parsed_resume.total_experience_years - job_requirements.min_experience) * 5) := by
          apply le_min (by norm_num)
          have hge : job_requirements.min_experience ≤ parsed_resume.total_experience_years := by
            assumption
          nlinarith
        exact le_min (by norm_num) (by linarith)
      · exact min_le_left _ _
      · exact le_max_left _ _
    · refine ⟨le_max_left _ _, ?_, le_max_left _ _⟩
      apply max_le (by norm_num)
      have : (0 : ℚ) ≤ (job_requirements.min_experience -
          parsed_resume.total_experience_years) * 15 := by
        have hlt : ¬ job_requirements.min_experience ≤ parsed_resume.total_experience_years := by
          assumption
        nlinarith [lt_of_not_le hlt]
      linarith

theorem eduScoreHigh_bounds (hl rq : ℕ) (h : rq ≤ hl) :
    0 ≤ min (100 : ℚ) (80 + ((hl : ℚ) - (rq : ℚ)) * 10) ∧
    min (100 : ℚ) (80 + ((hl : ℚ) - (rq : ℚ)) * 10) ≤ 100 := by
  have h0 : (0 : ℚ) ≤ (hl : ℚ) - (rq : ℚ) := by
    rw [sub_nonneg]; exact_mod_cast h
  exact ⟨le_min (by norm_num) (by nlinarith), min_le_left _ _⟩

theorem eduScoreLow_bounds (hl rq : ℕ) (h : ¬ rq ≤ hl) :
    0 ≤ max (20 : ℚ) (80 - ((rq : ℚ) - (hl : ℚ)) * 20) ∧
    max (20 : ℚ) (80 - ((rq : ℚ) - (hl : ℚ)) * 20) ≤ 100 := by
  have h0 : (0 : ℚ) ≤ (rq : ℚ) - (hl : ℚ) := by
    rw [sub_nonneg]
    exact_mod_cast le_of_lt (Nat.lt_of_not_le h)
  exact ⟨le_trans (by norm_num) (le_max_left _ _), max_le (by norm_num) (by nlinarith)⟩

theorem score_education_bounds (parsed_resume : ParsedResume)
    (job_requirements : JobRequirements) :
    0 ≤ score_education parsed_resume job_requirements ∧
    score_education parsed_resume job_requirements ≤ 100 := by
  simp only [score_education]
  split
  · norm_num
  · split
    · norm_num
    · split
      · norm_num
      · split
        · rename_i hge
          exact eduScoreHigh_bounds _ _ hge
        · rename_i hlt
          exact eduScoreLow_bounds _ _ hlt

theorem score_keywords_bounds (tokenize : String → List String)
    (parsed_resume : ParsedResume) (job_description : String) :
    0 ≤ score_keywords tokenize parsed_resume job_description ∧
    score_keywords tokenize parsed_resume job_description ≤ 100 := by
  simp only [score_keywords]
  split
  · norm_num
  · split
    · rename_i h
      constructor
      · apply le_min (by norm_num)
        positivity
      · exact min_le_left _ _
    · constructor
      · apply le_min (by norm_num); norm_num
      · exact min_le_left _ _

theorem score_summary_bounds (tokenize : String → List String)
    (parsed_resume : ParsedResume) (job_description : String) :
    0 ≤ score_summary tokenize parsed_resume job_description ∧
    score_summary tokenize parsed_resume job_description ≤ 100 := by
  simp only [score_summary]
  split
  · norm_num
  · split
    · norm_num
    · constructor
      · apply le_min (by norm_num)
        positivity
      · exact min_le_left _ _

theorem roundHalfEven_cases (x : ℚ) :
    roundHalfEven x = ⌊x⌋ ∨ roundHalfEven x = ⌊x⌋ + 1 := by
  simp only [roundHalfEven]
  split
  · exact Or.inl rfl
  · split
    · exact Or.inr rfl
    · split
      · exact Or.inl rfl
      · exact Or.inr rfl

theorem roundHalfEven_bounds (x : ℚ) (B : ℤ) (h0 : 0 ≤ x) (hB : x ≤ (B : ℚ)) :
    0 ≤ roundHalfEven x ∧ roundHalfEven x ≤ B := by
  have hf0 : 0 ≤ ⌊x⌋ := Int.floor_nonneg.mpr h0
  have hfB : ⌊x⌋ ≤ B := by
    have h := Int.floor_le_floor hB
    simpa using h
  rcases roundHalfEven_cases x with h | h
  · rw [h]; exact ⟨hf0, hfB⟩
  · rw [h]
    refine ⟨by omega, ?_⟩
    rcases lt_or_eq_of_le hfB with hlt | heq
    · omega
    · exfalso
      have hxB : (B : ℚ) ≤ x := by
        rw [← heq]; exact Int.floor_le x
      have hxeq : x = (B : ℚ) := le_antisymm hB hxB
      have hr : x - ((⌊x⌋ : ℤ) : ℚ) = 0 := by
        rw [hxeq]; simp
      have heqf : roundHalfEven x = ⌊x⌋ := by
        simp only [roundHalfEven]
        rw [if_pos (show x - ((⌊x⌋ : ℤ) : ℚ) < 1/2 by rw [hr]; norm_num)]
      omega

theorem round2_bounds (x : ℚ) (h0 : 0 ≤ x) (h100 : x ≤ 100) :
    0 ≤ round2 x ∧ round2 x ≤ 100 := by
  have h := roundHalfEven_bounds (x * 100) 10000 (by nlinarith) (by push_cast; nlinarith)
  simp only [round2]
  constructor
  · apply div_nonneg _ (by norm_num)
    exact_mod_cast h.1
  · rw [div_le_iff₀ (by norm_num)]
    have : (roundHalfEven (x * 100) : ℚ) ≤ 10000 := by exact_mod_cast h.2
    linarith

theorem score_skills_direct_match_bounds (parsed_resume : ParsedResume)
    (job_description : String) :
    0 ≤ (score_skills_direct_match parsed_resume job_description).score ∧
    (score_skills_direct_match parsed_resume job_description).score ≤ 100 :=
  score_skills_from_lists_bounds _ _

theorem overall_bounds_aux (S E D K U : ℚ) (w : ScoringWeights)
    (hS : 0 ≤ S ∧ S ≤ 100) (hE : 0 ≤ E ∧ E ≤ 100) (hD : 0 ≤ D ∧ D ≤ 100)
    (hK : 0 ≤ K ∧ K ≤ 100) (hU : 0 ≤ U ∧ U ≤ 100)
    (hw1 : 0 ≤ w.skills_weight) (hw2 : 0 ≤ w.experience_weight)
    (hw3 : 0 ≤ w.education_weight) (hw4 : 0 ≤ w.keywords_weight)
    (hw5 : 0 ≤ w.summary_weight)
    (hsum : w.skills_weight + w.experience_weight + w.education_weight +
      w.keywords_weight + w.summary_weight ≤ 1) :
    0 ≤ round2 (S * w.skills_weight + E * w.experience_weight + D * w.education_weight +
        K * w.keywords_weight + U * w.summary_weight) ∧
    round2 (S * w.skills_weight + E * w.experience_weight + D * w.education_weight +
        K * w.keywords_weight + U * w.summary_weight) ≤ 100 := by
  have hlo : 0 ≤ S * w.skills_weight + E * w.experience_weight + D * w.education_weight +
      K * w.keywords_weight + U * w.summary_weight := by
    have t1 : 0 ≤ S * w.skills_weight := mul_nonneg hS.1 hw1
    have t2 : 0 ≤ E * w.experience_weight := mul_nonneg hE.1 hw2
    have t3 : 0 ≤ D * w.education_weight := mul_nonneg hD.1 hw3
    have t4 : 0 ≤ K * w.keywords_weight := mul_nonneg hK.1 hw4
    have t5 : 0 ≤ U * w.summary_weight := mul_nonneg hU.1 hw5
    linarith
  have hhi : S * w.skills_weight + E * w.experience_weight + D * w.education_weight +
      K * w.keywords_weight + U * w.summary_weight ≤ 100 := by
    have t1 : S * w.skills_weight ≤ 100 * w.skills_weight :=
      mul_le_mul_of_nonneg_right hS.2 hw1
    have t2 : E * w.experience_weight ≤ 100 * w.experience_weight :=
      mul_le_mul_of_nonneg_right hE.2 hw2
    have t3 : D * w.education_weight ≤ 100 * w.education_weight :=
      mul_le_mul_of_nonneg_right hD.2 hw3
    have t4 : K * w.keywords_weight ≤ 100 * w.keywords_weight :=
      mul_le_mul_of_nonneg_right hK.2 hw4
    have t5 : U * w.summary_weight ≤ 100 * w.summary_weight :=
      mul_le_mul_of_nonneg_right hU.2 hw5
    linarith
  exact round2_bounds _ hlo hhi

/-- C1: for every resume and job description on which the skill matcher runs
(non-empty extracted job-skill set), the `matched_skills` and `missing_skills`
lists of the skills scorer partition the extracted job-skill set exactly:
every extracted job skill is in one of the two lists, no skill is in both,
and each job skill is counted exactly once across their concatenation (none
lost, none duplicated). -/
theorem C1_matched_missing_partition (parsed_resume : ParsedResume)
    (job_description : String)
    (h : extract_skills_from_job_description job_description ≠ []) :
    (∀ s, s ∈ extract_skills_from_job_description job_description ↔
      (s ∈ (score_skills_direct_match parsed_resume job_description).matched ∨
       s ∈ (score_skills_direct_match parsed_resume job_description).missing)) ∧
    (∀ s, ¬ (s ∈ (score_skills_direct_match parsed_resume job_description).matched ∧
       s ∈ (score_skills_direct_match parsed_resume job_description).missing)) ∧
    (∀ s ∈ extract_skills_from_job_description job_description,
      ((score_skills_direct_match parsed_resume job_description).matched ++
       (score_skills_direct_match parsed_resume job_description).missing).count s = 1) := by
  have hpart := skills_partition (extract_skills_from_job_description job_description)
    (extract_skills_from_resume parsed_resume)
    (extract_skills_from_job_description_nodup job_description)
  simpa [score_skills_direct_match] using hpart

/-- Witness for C1: the job description consisting of the parenthetical
`(sql)` extracts the non-empty job-skill set `["sql"]`, and no skill lands in
both lists. -/
theorem C1_witness :
    ¬ ("sql" ∈ (score_skills_direct_match ⟨[], "", [], [], "", 0⟩ "(sql)").matched ∧
       "sql" ∈ (score_skills_direct_match ⟨[], "", [], [], "", 0⟩ "(sql)").missing) :=
  (C1_matched_missing_partition ⟨[], "", [], [], "", 0⟩ "(sql)" (by decide)).2.1 "sql"

/-- C3: for every non-empty job-skill set, the skills score equals
`min(100, match_rate * 85 + min(15, resume_skill_count / max(1, job_skill_count) * 10))`
with `match_rate = |matched| / |job_skills|`; consequently a zero-match result
scores at most 15. -/
theorem C3_skills_score_formula (job_skills resume_skills : List String)
    (h : job_skills ≠ []) :
    ((score_skills_from_lists job_skills resume_skills).score =
      min 100 (((score_skills_from_lists job_skills resume_skills).matched.length : ℚ) /
          (job_skills.length : ℚ) * 85 +
        min 15 ((resume_skills.length : ℚ) / ((max 1 job_skills.length : ℕ) : ℚ) * 10))) ∧
    ((score_skills_from_lists job_skills resume_skills).matched = [] →
      (score_skills_from_lists job_skills resume_skills).score ≤ 15) := by
  cases job_skills with
  | nil => exact absurd rfl h
  | cons a as =>
    have hm : (score_skills_from_lists (a :: as) resume_skills).matched =
        (a :: as).filter (fun j => decide ((7 : ℚ)/10 ≤ bestSimilarity j resume_skills)) := rfl
    have hsc : (score_skills_from_lists (a :: as) resume_skills).score =
        min 100 ((((a :: as).filter
            (fun j => decide ((7 : ℚ)/10 ≤ bestSimilarity j resume_skills))).length : ℚ) /
            ((a :: as).length : ℚ) * 85 +
          min 15 ((resume_skills.length : ℚ) / ((max 1 (a :: as).length : ℕ) : ℚ) * 10)) := rfl
    refine ⟨rfl, ?_⟩
    intro hempty
    rw [hm] at hempty
    rw [hsc, hempty]
    simp only [List.length_nil, Nat.cast_zero, zero_div, zero_mul, zero_add]
    exact le_trans (min_le_right _ _) (min_le_left _ _)

/-- Witness for C3: a single unmatched job skill against an empty resume-skill
set scores at most 15. -/
theorem C3_witness : (score_skills_from_lists ["zzz"] []).score ≤ 15 :=
  (C3_skills_score_formula ["zzz"] [] (by decide)).2 (by decide!)

/-- C2 (amended): each of the five component scores of `calculate_match_score`
lies in [0,100] for all inputs, and the overall score lies in [0,100] whenever
the weights are non-negative and sum to at most 1 (the default weights
qualify).  For arbitrary weights accepted by the interface the weighted sum
can exceed 100, see the counterexample. -/
theorem C2_score_bounds (tokenize : String → List String) (weights : ScoringWeights)
    (parsed_resume : ParsedResume) (job_description : String)
    (min_experience : Option ℚ) (education_requirement : Option String)
    (hw1 : 0 ≤ weights.skills_weight) (hw2 : 0 ≤ weights.experience_weight)
    (hw3 : 0 ≤ weights.education_weight) (hw4 : 0 ≤ weights.keywords_weight)
    (hw5 : 0 ≤ weights.summary_weight)
    (hsum : weights.skills_weight + weights.experience_weight + weights.education_weight +
      weights.keywords_weight + weights.summary_weight ≤ 1) :
    (0 ≤ (calculate_match_score tokenize weights parsed_resume job_description
        min_experience education_requirement).overall_score ∧
      (calculate_match_score tokenize weights parsed_resume job_description
        min_experience education_requirement).overall_score ≤ 100) ∧
    (0 ≤ (calculate_match_score tokenize weights parsed_resume job_description
        min_experience education_requirement).skills_score ∧
      (calculate_match_score tokenize weights parsed_resume job_description
        min_experience education_requirement).skills_score ≤ 100) ∧
    (0 ≤ (calculate_match_score tokenize weights parsed_resume job_description
        min_experience education_requirement).experience_score ∧
      (calculate_match_score tokenize weights parsed_resume job_description
        min_experience education_requirement).experience_score ≤ 100) ∧
    (0 ≤ (calculate_match_score tokenize weights parsed_resume job_description
        min_experience education_requirement).education_score ∧
      (calculate_match_score tokenize weights parsed_resume job_description
        min_experience education_requirement).education_score ≤ 100) ∧
    (0 ≤ (calculate_match_score tokenize weights parsed_resume job_description
        min_experience education_requirement).keywords_score ∧
      (calculate_match_score tokenize weights parsed_resume job_description
        min_experience education_requirement).keywords_score ≤ 100) ∧
    (0 ≤ (calculate_match_score tokenize weights parsed_resume job_description
        min_experience education_requirement).summary_score ∧
      (calculate_match_score tokenize weights parsed_resume job_description
        min_experience education_requirement).summary_score ≤ 100) := by
  have hS := score_skills_direct_match_bounds parsed_resume job_description
  refine ⟨?_, ?_, ?_, ?_, ?_, ?_⟩
  · exact overall_bounds_aux _ _ _ _ _ weights hS
      ⟨(score_experience_bounds parsed_resume _).1, (score_experience_bounds parsed_resume _).2.1⟩
      (score_education_bounds parsed_resume _)
      (score_keywords_bounds tokenize parsed_resume job_description)
      (score_summary_bounds tokenize parsed_resume job_description)
      hw1 hw2 hw3 hw4 hw5 hsum
  · exact round2_bounds _ hS.1 hS.2
  · exact round2_bounds _ (score_experience_bounds parsed_resume _).1
      (score_experience_bounds parsed_resume _).2.1
  · exact round2_bounds _ (score_education_bounds parsed_resume _).1
      (score_education_bounds parsed_resume _).2
  · exact round2_bounds _ (score_keywords_bounds tokenize parsed_resume job_description).1
      (score_keywords_bounds tokenize parsed_resume job_description).2
  · exact round2_bounds _ (score_summary_bounds tokenize parsed_resume job_description).1
      (score_summary_bounds tokenize parsed_resume job_description).2

/-- Witness for C2 (amended) at the default weights and a concrete empty
input. -/
theorem C2_witness :
    0 ≤ (calculate_match_score (fun _ => []) defaultWeights ⟨[], "", [], [], "", 0⟩
        "" none none).overall_score ∧
    (calculate_match_score (fun _ => []) defaultWeights ⟨[], "", [], [], "", 0⟩
        "" none none).overall_score ≤ 100 :=
  (C2_score_bounds (fun _ => []) defaultWeights ⟨[], "", [], [], "", 0⟩ "" none none
    (by decide!) (by decide!) (by decide!) (by decide!) (by decide!) (by decide!)).1

/-- Counterexample to C2 as stated: the interface accepts arbitrary weights
(the dataclass performs no validation), and with all five weights set to 1 an
empty resume and empty job description already produce an overall score of
300 > 100. -/
theorem C2_counterexample :
    (calculate_match_score (fun _ => []) ⟨1, 1, 1, 1, 1⟩ ⟨[], "", [], [], "", 0⟩
        "" none none).overall_score = 300 ∧
    ¬ ((calculate_match_score (fun _ => []) ⟨1, 1, 1, 1, 1⟩ ⟨[], "", [], [], "", 0⟩
        "" none none).overall_score ≤ 100) := by
  decide!

theorem listStarts_refl (l : List Char) : listStarts l l = true := by
  induction l with
  | nil => rfl
  | cons c cs ih => simp [listStarts, ih]

/-- C4: scoring with an empty job description is total and neutral on the
skills side, for every resume and every configuration: the job-skill
extractor yields the empty skill set, the skills sub-score is the fixed
neutral 50.0, `matched_skills` and `missing_skills` are both empty, and the
debug metadata flags the zero-signal condition (reason string and a zero
job-skill count), distinguishable from a poor match.  (The model is total by
construction, mirroring that the Python path raises nothing here.) -/
theorem C4_empty_job_description (tokenize : String → List String)
    (weights : ScoringWeights) (parsed_resume : ParsedResume)
    (min_experience : Option ℚ) (education_requirement : Option String) :
    extract_skills_from_job_description "" = [] ∧
    (calculate_match_score tokenize weights parsed_resume "" min_experience
      education_requirement).skills_score = 50 ∧
    (calculate_match_score tokenize weights parsed_resume "" min_experience
      education_requirement).matched_skills = [] ∧
    (calculate_match_score tokenize weights parsed_resume "" min_experience
      education_requirement).missing_skills = [] ∧
    (calculate_match_score tokenize weights parsed_resume "" min_experience
      education_requirement).debug_info =
      some ⟨0, (extract_skills_from_resume parsed_resume).length, 0, 0, 0,
        some "No skills extracted from job description"⟩ := by
  have hext : extract_skills_from_job_description "" = [] := by decide
  have hskills : score_skills_direct_match parsed_resume "" =
      ⟨50, [], [],
       ⟨0, (extract_skills_from_resume parsed_resume).length, 0, 0, 0,
        some "No skills extracted from job description"⟩⟩ := by
    simp only [score_skills_direct_match, hext]
    rfl
  have hproj1 : (calculate_match_score tokenize weights parsed_resume "" min_experience
      education_requirement).skills_score =
      round2 (score_skills_direct_match parsed_resume "").score := rfl
  have hproj2 : (calculate_match_score tokenize weights parsed_resume "" min_experience
      education_requirement).matched_skills =
      (score_skills_direct_match parsed_resume "").matched := rfl
  have hproj3 : (calculate_match_score tokenize weights parsed_resume "" min_experience
      education_requirement).missing_skills =
      (score_skills_direct_match parsed_resume "").missing := rfl
  have hproj4 : (calculate_match_score tokenize weights parsed_resume "" min_experience
      education_requirement).debug_info =
      some (score_skills_direct_match parsed_resume "").debug := rfl
  refine ⟨hext, ?_, ?_, ?_, ?_⟩
  · rw [hproj1, hskills]
    show round2 50 = 50
    decide!
  · rw [hproj2, hskills]
  · rw [hproj3, hskills]
  · rw [hproj4, hskills]

/-- C6: an error anywhere in the pipeline body is converted at the `score`
boundary into the sentinel result: all six scores 0.0, empty skill lists,
zero experience gap, and exactly one recommendation string carrying the error
description; no exception escapes (the boundary is a total function). -/
theorem C6_error_sentinel (e : String) :
    calculate_match_score_boundary (Except.error e) = create_error_result e ∧
    (create_error_result e).overall_score = 0 ∧
    (create_error_result e).skills_score = 0 ∧
    (create_error_result e).experience_score = 0 ∧
    (create_error_result e).education_score = 0 ∧
    (create_error_result e).keywords_score = 0 ∧
    (create_error_result e).summary_score = 0 ∧
    (create_error_result e).matched_skills = [] ∧
    (create_error_result e).missing_skills = [] ∧
    (create_error_result e).experience_gap = 0 ∧
    (create_error_result e).recommendations = ["Error in scoring: " ++ e] ∧
    (create_error_result e).recommendations.length = 1 ∧
    strContains ("Error in scoring: " ++ e) e = true := by
  refine ⟨rfl, rfl, rfl, rfl, rfl, rfl, rfl, rfl, rfl, rfl, rfl, rfl, ?_⟩
  show (("Error in scoring: " ++ e).toList.tails.any
    (fun t => listStarts e.toList t)) = true
  rw [List.any_eq_true]
  refine ⟨e.toList, ?_, listStarts_refl _⟩
  rw [List.mem_tails]
  refine ⟨"Error in scoring: ".toList, ?_⟩
  show "Error in scoring: ".data ++ e.data = ("Error in scoring: " ++ e).data
  rw [String.data_append]

/-- C5: the skill-similarity function maps every pair of strings into [0,1];
it returns 1.0 on equality of the lowercased strings, 0.9 when either
lowercased string is a substring of the other (and not equal), and otherwise
the maximum of character-set Jaccard similarity and, when either string has
more than one word, word-set Jaccard similarity; the exact and substring
cases are symmetric in the two arguments, and in particular
`sim("python","python") = 1` and `sim("react","react.js") =
sim("react.js","react") = 0.9`. -/
theorem C5_similarity_cases :
    (∀ a b, 0 ≤ calculate_skill_similarity a b ∧ calculate_skill_similarity a b ≤ 1) ∧
    (∀ a b, pyLower a = pyLower b → calculate_skill_similarity a b = 1) ∧
    (∀ a b, pyLower a ≠ pyLower b →
      (strContains (pyLower b) (pyLower a) || strContains (pyLower a) (pyLower b)) = true →
      calculate_skill_similarity a b = 9/10 ∧ calculate_skill_similarity b a = 9/10) ∧
    (∀ a b, pyLower a ≠ pyLower b →
      (strContains (pyLower b) (pyLower a) || strContains (pyLower a) (pyLower b)) = false →
      calculate_skill_similarity a b =
        (if 1 < (pySplitWs (pyLower a)).length ∨ 1 < (pySplitWs (pyLower b)).length then
          max (charJaccard (pyLower a) (pyLower b)) (wordJaccard (pyLower a) (pyLower b))
        else charJaccard (pyLower a) (pyLower b))) ∧
    (∀ a b, pyLower a = pyLower b →
      calculate_skill_similarity a b = calculate_skill_similarity b a) ∧
    calculate_skill_similarity "python" "python" = 1 ∧
    calculate_skill_similarity "react" "react.js" = 9/10 ∧
    calculate_skill_similarity "react.js" "react" = 9/10 := by
  refine ⟨calculate_skill_similarity_bounds, ?_, ?_, ?_, ?_, by decide!, by decide!, by decide!⟩
  · intro a b h
    simp only [calculate_skill_similarity]
    rw [if_pos h]
  · intro a b h hc
    constructor
    · simp only [calculate_skill_similarity]
      rw [if_neg h, if_pos (by simp [hc])]
    · simp only [calculate_skill_similarity]
      rw [if_neg (fun hba => h hba.symm),
        if_pos (by rw [Bool.or_comm] at hc; simp [hc])]
  · intro a b h hc
    simp only [calculate_skill_similarity]
    rw [if_neg h, if_neg (by simp [hc])]
  · intro a b h
    simp only [calculate_skill_similarity]
    rw [if_pos h, if_pos h.symm]

/-- Witness for C5: the containment case at the concrete pair from the spec,
in both argument orders. -/
theorem C5_witness :
    calculate_skill_similarity "react" "react.js" = 9/10 ∧
    calculate_skill_similarity "react.js" "react" = 9/10 :=
  C5_similarity_cases.2.2.1 "react" "react.js" (by decide) (by decide)

theorem experience_message_head (g : ℚ) :
    (experience_gap_message g).toList =
      'E' :: ("xperience gap: ".toList ++ (fmt1 g).toList ++
        " years below requirement".toList) := by
  show (("Experience gap: " ++ fmt1 g) ++ " years below requirement").data = _
  rw [String.data_append, String.data_append]
  have h2 : "Experience gap: ".data = 'E' :: "xperience gap: ".data := by decide
  rw [h2]
  simp [List.cons_append, List.append_assoc]

theorem skills_tag_not_on_exp_message (g : ℚ) :
    hasSkillsGapTag (experience_gap_message g) = false := by
  show listStarts skillsGapTag (experience_gap_message g).toList = false
  rw [experience_message_head]
  have h1 : skillsGapTag = 'S' :: "kills gap identified".toList := by decide
  rw [h1]
  simp [listStarts]

theorem skills_tag_not_on_education :
    hasSkillsGapTag education_message = false := by decide

theorem skills_tag_not_on_keywords :
    hasSkillsGapTag keywords_message = false := by decide

theorem skills_tag_not_on_summary :
    hasSkillsGapTag summary_message = false := by decide

theorem skills_tag_not_on_strong :
    hasSkillsGapTag strong_match_message = false := by decide

set_option maxHeartbeats 1000000 in
/-- C7 (amended): recommendation generation is deterministic and ordered with
fixed thresholds, testing in order skills score < 60 with a non-empty missing
list (naming the missing count and up to the first 3 names), then experience
score < 60 with nonzero gap, then education < 60, then keywords < 50, then
summary < 50; each triggered condition appends exactly one fixed-template
string in that order; if none triggers, exactly one fallback positive string
is appended, so the list is never empty.  (The amendment, forced by the
counterexample: the skills condition also requires a non-empty missing list,
not merely skills score < 60.) -/
theorem C7_recommendation_order (skills_result : SkillsResult)
    (experience_result : ExperienceResult)
    (education_score keywords_score summary_score : ℚ) :
    generate_recommendations skills_result experience_result education_score
      keywords_score summary_score =
    orderedRecommendations skills_result experience_result education_score
      keywords_score summary_score ∧
    generate_recommendations skills_result experience_result education_score
      keywords_score summary_score ≠ [] := by
  constructor
  · simp only [generate_recommendations, orderedRecommendations]
    split_ifs <;> simp_all
  · simp only [generate_recommendations]
    split_ifs <;> simp_all

/-- Counterexample to C7 as stated: with skills score 50 < 60 but an empty
missing list (exactly what an empty job-skill set produces) and all other
scores high, no skills-gap string is appended; the output is the single
fallback string, although the claim as stated requires a skills-gap message
whenever the skills score is below 60. -/
theorem C7_counterexample :
    (50 : ℚ) < 60 ∧
    generate_recommendations ⟨50, [], [], ⟨0, 0, 0, 0, 0, none⟩⟩ ⟨80, 0⟩ 80 80 80 =
      [strong_match_message] ∧
    skills_gap_message [] ∉
      generate_recommendations ⟨50, [], [], ⟨0, 0, 0, 0, 0, none⟩⟩ ⟨80, 0⟩ 80 80 80 := by
  decide!

set_option maxHeartbeats 1000000 in
/-- C10: the skills-gap recommendation is produced only when the missing list
is non-empty: with `missing = []` no output string carries the skills-gap
prefix and every output string is one of the other component messages or the
fallback; in particular an empty job-skill set yields the neutral score 50
(below the 60 threshold) with empty missing list, so its recommendations can
only come from the other conditions or the fallback. -/
theorem C10_skills_gap_needs_missing (skills_result : SkillsResult)
    (experience_result : ExperienceResult)
    (education_score keywords_score summary_score : ℚ)
    (h : skills_result.missing = []) :
    ((generate_recommendations skills_result experience_result education_score
        keywords_score summary_score).all (fun r => !(hasSkillsGapTag r))) = true ∧
    (∀ r ∈ generate_recommendations skills_result experience_result education_score
        keywords_score summary_score,
      r = experience_gap_message experience_result.gap ∨ r = education_message ∨
      r = keywords_message ∨ r = summary_message ∨ r = strong_match_message) ∧
    (∀ resume_skills, (score_skills_from_lists [] resume_skills).score = 50 ∧
      (score_skills_from_lists [] resume_skills).missing = []) := by
  have hfalse : ¬ (skills_result.score < 60 ∧ 0 < skills_result.missing.length) := by
    rintro ⟨-, hlen⟩
    rw [h] at hlen
    simp at hlen
  have hmem : ∀ r ∈ generate_recommendations skills_result experience_result
      education_score keywords_score summary_score,
      r = experience_gap_message experience_result.gap ∨ r = education_message ∨
      r = keywords_message ∨ r = summary_message ∨ r = strong_match_message := by
    intro r hr
    revert hr
    simp only [generate_recommendations, if_neg hfalse]
    split_ifs <;> simp_all <;> tauto
  refine ⟨?_, hmem, fun rs => ⟨rfl, rfl⟩⟩
  rw [List.all_eq_true]
  intro r hr
  rcases hmem r hr with h1 | h1 | h1 | h1 | h1 <;> subst h1
  · simp [skills_tag_not_on_exp_message]
  · simp [skills_tag_not_on_education]
  · simp [skills_tag_not_on_keywords]
  · simp [skills_tag_not_on_summary]
  · simp [skills_tag_not_on_strong]

/-- Witness for C10 at a concrete zero-missing input. -/
theorem C10_witness :
    ((generate_recommendations ⟨50, [], [], ⟨0, 0, 0, 0, 0, none⟩⟩ ⟨80, 0⟩ 80 80 80).all
      (fun r => !(hasSkillsGapTag r))) = true :=
  (C10_skills_gap_needs_missing ⟨50, [], [], ⟨0, 0, 0, 0, 0, none⟩⟩ ⟨80, 0⟩ 80 80 80 rfl).1

/-- C8 (amended): token cleaning keeps exactly the tokens longer than 2
characters that are purely alphabetic and not in the language stop-word list
(`stop_words` alone).  The boilerplate-augmented `ignore_words` union is used
by skill extraction, not by token cleaning, so boilerplate terms such as
"experience", "skills", "proficiency" — which are in `ignore_words` but not
in the language stop-word list — survive cleaning. -/
theorem C8_clean_tokens_filter :
    (∀ tokens, clean_tokens tokens = tokens.filter
      (fun token => token.length > 2 && pyIsAlpha token && !(stop_words.contains token))) ∧
    (∀ t tokens, t ∈ clean_tokens tokens ↔
      (t ∈ tokens ∧ t.length > 2 ∧ pyIsAlpha t = true ∧ ¬ t ∈ stop_words)) ∧
    ("experience" ∈ ignore_words ∧ "skills" ∈ ignore_words ∧
      "proficiency" ∈ ignore_words) ∧
    ("experience" ∉ stop_words ∧ "skills" ∉ stop_words ∧
      "proficiency" ∉ stop_words) := by
  refine ⟨fun tokens => rfl, ?_, by decide, by decide⟩
  intro t tokens
  simp [clean_tokens, List.mem_filter]
  tauto

/-- Counterexample to C8 as stated: cleaning filters only against the
language stop-word list, not against the stop-word/boilerplate union, so the
boilerplate tokens "experience", "skills", "proficiency" (members of the
union that the claim says are removed) all survive cleaning. -/
theorem C8_counterexample :
    clean_tokens ["experience", "skills", "proficiency"] =
      ["experience", "skills", "proficiency"] ∧
    "experience" ∈ ignore_words ∧ "skills" ∈ ignore_words ∧
    "proficiency" ∈ ignore_words := by
  decide

/-- C9: with a non-negative experience requirement and non-negative resume
years, the experience scorer returns the neutral 75 with zero gap when no
minimum is inferred; at or above the requirement it scores in [75,100] by the
capped surplus formula with zero gap, monotonically in the resume years;
below the requirement it scores strictly below the neutral 75 with floor 0 by
the proportional-penalty formula, and the reported gap is exactly the
shortfall; the gap is always non-negative and zero whenever the requirement
is met or absent. -/
theorem C9_experience_scoring (parsed_resume : ParsedResume)
    (job_requirements : JobRequirements)
    (hy : 0 ≤ parsed_resume.total_experience_years)
    (hr : 0 ≤ job_requirements.min_experience) :
    (job_requirements.min_experience = 0 →
      (score_experience parsed_resume job_requirements).score = 75 ∧
      (score_experience parsed_resume job_requirements).gap = 0) ∧
    (job_requirements.min_experience ≠ 0 →
      job_requirements.min_experience ≤ parsed_resume.total_experience_years →
      (score_experience parsed_resume job_requirements).score =
        75 + min 25 ((parsed_resume.total_experience_years -
          job_requirements.min_experience) * 5) ∧
      75 ≤ (score_experience parsed_resume job_requirements).score ∧
      (score_experience parsed_resume job_requirements).score ≤ 100 ∧
      (score_experience parsed_resume job_requirements).gap = 0) ∧
    (job_requirements.min_experience ≠ 0 →
      parsed_resume.total_experience_years < job_requirements.min_experience →
      (score_experience parsed_resume job_requirements).score =
        max 0 (75 - (job_requirements.min_experience -
          parsed_resume.total_experience_years) * 15) ∧
      (score_experience parsed_resume job_requirements).score < 75 ∧
      0 ≤ (score_experience parsed_resume job_requirements).score ∧
      (score_experience parsed_resume job_requirements).gap =
        job_requirements.min_experience - parsed_resume.total_experience_years) ∧
    (0 ≤ (score_experience parsed_resume job_requirements).gap) ∧
    (job_requirements.min_experience ≤ parsed_resume.total_experience_years →
      (score_experience parsed_resume job_requirements).gap = 0) ∧
    (∀ y1 y2 : ℚ, job_requirements.min_experience ≤ y1 → y1 ≤ y2 →
      (score_experience { parsed_resume with total_experience_years := y1 }
        job_requirements).score ≤
      (score_experience { parsed_resume with total_experience_years := y2 }
        job_requirements).score) := by
  have hdef : score_experience parsed_resume job_requirements =
      (if job_requirements.min_experience = 0 then (⟨75, 0⟩ : ExperienceResult)
       else if job_requirements.min_experience ≤ parsed_resume.total_experience_years then
        ⟨min 100 (75 + min 25 ((parsed_resume.total_experience_years -
            job_requirements.min_experience) * 5)),
         max 0 (job_requirements.min_experience - parsed_resume.total_experience_years)⟩
       else
        ⟨max 0 (75 - (job_requirements.min_experience -
            parsed_resume.total_experience_years) * 15),
         max 0 (job_requirements.min_experience - parsed_resume.total_experience_years)⟩) := rfl
  refine ⟨?_, ?_, ?_, ?_, ?_, ?_⟩
  · intro h0
    rw [hdef, if_pos h0]
    exact ⟨rfl, rfl⟩
  · intro hne hge
    rw [hdef, if_neg hne, if_pos hge]
    have hb0 : 0 ≤ min 25 ((parsed_resume.total_experience_years -
        job_requirements.min_experience) * 5) :=
      le_min (by norm_num) (by nlinarith)
    have hb25 : min 25 ((parsed_resume.total_experience_years -
        job_requirements.min_experience) * 5) ≤ 25 := min_le_left _ _
    refine ⟨min_eq_right (by linarith), ?_, min_le_left _ _, max_eq_left (by linarith)⟩
    show (75 : ℚ) ≤ min 100 (75 + min 25 ((parsed_resume.total_experience_years -
        job_requirements.min_experience) * 5))
    rw [min_eq_right (by linarith)]
    linarith
  · intro hne hlt
    rw [hdef, if_neg hne, if_neg (not_le.mpr hlt)]
    have hgap : 0 < job_requirements.min_experience -
        parsed_resume.total_experience_years := by linarith
    refine ⟨rfl, ?_, le_max_left _ _, max_eq_right (by linarith)⟩
    show max 0 (75 - (job_requirements.min_experience -
        parsed_resume.total_experience_years) * 15) < 75
    apply max_lt (by norm_num)
    nlinarith
  · rw [hdef]
    by_cases h0 : job_requirements.min_experience = 0
    · rw [if_pos h0]
    · rw [if_neg h0]
      by_cases hge : job_requirements.min_experience ≤ parsed_resume.total_experience_years
      · rw [if_pos hge]; exact le_max_left _ _
      · rw [if_neg hge]; exact le_max_left _ _
  · intro hge
    rw [hdef]
    by_cases h0 : job_requirements.min_experience = 0
    · rw [if_pos h0]
    · rw [if_neg h0, if_pos hge]
      exact max_eq_left (by linarith)
  · intro y1 y2 h1 h12
    have e1 : score_experience { parsed_resume with total_experience_years := y1 }
        job_requirements =
        (if job_requirements.min_experience = 0 then (⟨75, 0⟩ : ExperienceResult)
         else if job_requirements.min_experience ≤ y1 then
          ⟨min 100 (75 + min 25 ((y1 - job_requirements.min_experience) * 5)),
           max 0 (job_requirements.min_experience - y1)⟩
         else
          ⟨max 0 (75 - (job_requirements.min_experience - y1) * 15),
           max 0 (job_requirements.min_experience - y1)⟩) := rfl
    have e2 : score_experience { parsed_resume with total_experience_years := y2 }
        job_requirements =
        (if job_requirements.min_experience = 0 then (⟨75, 0⟩ : ExperienceResult)
         else if job_requirements.min_experience ≤ y2 then
          ⟨min 100 (75 + min 25 ((y2 - job_requirements.min_experience) * 5)),
           max 0 (job_requirements.min_experience - y2)⟩
         else
          ⟨max 0 (75 - (job_requirements.min_experience - y2) * 15),
           max 0 (job_requirements.min_experience - y2)⟩) := rfl
    rw [e1, e2]
    by_cases h0 : job_requirements.min_experience = 0
    · rw [if_pos h0, if_pos h0]
    · have hy2 : job_requirements.min_experience ≤ y2 := le_trans h1 h12
      rw [if_neg h0, if_neg h0, if_pos h1, if_pos hy2]
      show min 100 (75 + min 25 ((y1 - job_requirements.min_experience) * 5)) ≤
        min 100 (75 + min 25 ((y2 - job_requirements.min_experience) * 5))
      have k1 : min 25 ((y1 - job_requirements.min_experience) * 5) ≤
          min 25 ((y2 - job_requirements.min_experience) * 5) :=
        min_le_min (le_refl _) (by nlinarith)
      have k2 : min 25 ((y1 - job_requirements.min_experience) * 5) ≤ 25 :=
        min_le_left _ _
      have k3 : min 25 ((y2 - job_requirements.min_experience) * 5) ≤ 25 :=
        min_le_left _ _
      rw [min_eq_right (show (75 : ℚ) + min 25 ((y1 - job_requirements.min_experience) * 5) ≤
            100 by linarith),
        min_eq_right (show (75 : ℚ) + min 25 ((y2 - job_requirements.min_experience) * 5) ≤
            100 by linarith)]
      linarith

/-- Witness for C9 at a concrete met-requirement input: five resume years
against a three-year requirement give a zero experience gap. -/
theorem C9_witness :
    (score_experience ⟨[], "", [], [], "", 5⟩ ⟨3, none⟩).gap = 0 :=
  (C9_experience_scoring ⟨[], "", [], [], "", 5⟩ ⟨3, none⟩ (by norm_num)
    (by norm_num)).2.2.2.2.1 (by norm_num)
